import Mathlib

/-!
Verification development for the Sinch MCP server
(`src/src/sinch-server.ts`, `src/build/tools.js`, `src/build/index.js`).

The JavaScript/TypeScript source is shallowly embedded:
* optional values (`undefined`-able fields and parameters) become `Option`;
* JavaScript string truthiness (`if (s)`) becomes `strTruthy`
  (a string is truthy iff non-empty, `undefined` is falsy);
* JSON objects used as string-keyed maps become association lists in
  insertion order, with `lookupProj` modelling own-property access;
* `throw new Error(msg)` / `try`-`catch` become `Except String`;
* outbound HTTP is never performed by the embedded operations: each
  operation returns the single `HTTPRequest` it would issue (client
  construction via `axios.create` performs no I/O), so an operation that
  returns `.error` has failed before any network request; the transport
  itself is an oracle parameter where a claim needs a full call.
Request JSON bodies are not reified (no claim inspects them); a request
is its method, base URL, headers, path and query pairs.
-/

deriving instance DecidableEq for Except

/-- JavaScript truthiness of a possibly-`undefined` string:
`undefined` and `""` are falsy, every other string truthy. -/
def strTruthy : Option String → Bool
  | some s => !(s == "")
  | none => false

/-- Models the JavaScript expression `s || d` for a possibly-`undefined`
string `s`: the default `d` is used when `s` is `undefined` or empty. -/
def strOptOr (s : Option String) (d : String) : String :=
  match s with
  | some v => if v == "" then d else v
  | none => d

/-- JavaScript string coercion of a possibly-`undefined` string argument
interpolated into a template literal: `undefined` prints as "undefined". -/
def jsArg : Option String → String
  | some s => s
  | none => "undefined"

/-- Auxiliary accumulator for `splitOnChar`. -/
def splitOnCharAux (sep : Char) : List Char → List Char → List String
  | [], acc => [String.mk acc.reverse]
  | c :: rest, acc =>
    if c == sep then String.mk acc.reverse :: splitOnCharAux sep rest []
    else splitOnCharAux sep rest (c :: acc)

/-- Models the JavaScript `String.prototype.split` with a single-character
separator (e.g. `"/batch/B1".split('/')` gives `["", "batch", "B1"]`). -/
def splitOnChar (sep : Char) (s : String) : List String :=
  splitOnCharAux sep s.data []

example : splitOnChar '/' "/batch/B1" = ["", "batch", "B1"] := by decide
example : splitOnChar ',' "a, b ,b" = ["a", " b ", "b"] := by decide

/-- One named project configuration (interface `ProjectConfig`,
src/src/sinch-server.ts lines 26-35). `servicePlanId` and `apiToken` are
required by the interface; the remaining fields are optional. `region` is
kept as a raw string: the values originate from JSON/environment text. -/
structure ProjectConfig where
  servicePlanId : String
  apiToken : String
  projectId : Option String := none
  appId : Option String := none
  clientId : Option String := none
  clientSecret : Option String := none
  region : Option String := none
  displayName : Option String := none
  deriving Repr, DecidableEq

/-- Process-wide configuration (interface `SinchConfig`,
src/src/sinch-server.ts lines 37-51): optional legacy flat fields, an
optional parent-project identifier list, an optional named-project mapping
(association list in insertion order) and an optional default name. -/
structure SinchConfig where
  servicePlanId : Option String := none
  apiToken : Option String := none
  projectId : Option String := none
  appId : Option String := none
  clientId : Option String := none
  clientSecret : Option String := none
  region : Option String := none
  parentProjects : Option (List String) := none
  projects : Option (List (String × ProjectConfig)) := none
  defaultProject : Option String := none
  deriving Repr, DecidableEq

/-- Own-property lookup `m[name]` on a JSON object modelled as an
association list. -/
def lookupProj : List (String × ProjectConfig) → String → Option ProjectConfig
  | [], _ => none
  | (k, v) :: rest, name => if k == name then some v else lookupProj rest name

/-- Error message of `getProjectConfig` for an unknown explicit name
(src/src/sinch-server.ts line 114). -/
def projectNotFoundMsg (p : String) : String :=
  "Project configuration '" ++ p ++ "' not found"

/-- Error message of `getProjectConfig` when no configuration is usable
(src/src/sinch-server.ts line 136). -/
def noValidConfigMsg : String :=
  "No valid project configuration found. Either provide project name or configure default project."

/-- Models `SinchAPIClient.getProjectConfig` (src/src/sinch-server.ts
lines 108-137). The guard `if (projectName)` is string truthiness, the
guard `this.config.projects && this.config.projects[projectName]` is the
`Option.bind` of mapping presence and own-property lookup, and the legacy
branch synthesizes a `ProjectConfig` from the flat fields with
`region: this.config.region || 'us'`. -/
def getProjectConfig (cfg : SinchConfig) (projectName : Option String) :
    Except String ProjectConfig :=
  if strTruthy projectName then
    match cfg.projects.bind (fun m => lookupProj m (projectName.getD "")) with
    | some pc => .ok pc
    | none => .error (projectNotFoundMsg (projectName.getD ""))
  else
    match (if strTruthy cfg.defaultProject then
             cfg.projects.bind (fun m => lookupProj m (cfg.defaultProject.getD ""))
           else none) with
    | some pc => .ok pc
    | none =>
      if strTruthy cfg.servicePlanId && strTruthy cfg.apiToken then
        .ok { servicePlanId := cfg.servicePlanId.getD ""
              apiToken := cfg.apiToken.getD ""
              projectId := cfg.projectId
              appId := cfg.appId
              clientId := cfg.clientId
              clientSecret := cfg.clientSecret
              region := some (strOptOr cfg.region "us") }
      else .error noValidConfigMsg

example : getProjectConfig { servicePlanId := some "sp", apiToken := some "tok" } none =
    .ok { servicePlanId := "sp", apiToken := "tok", region := some "us" } := by decide

example : getProjectConfig {} (some "x") = .error (projectNotFoundMsg "x") := by decide

/-- A constructed axios client: base URL plus default headers
(`axios.create` performs no I/O; requests happen only when a verb method
is invoked on the client). -/
structure AxiosClient where
  baseURL : String
  headers : List (String × String)
  deriving Repr, DecidableEq

/-- The two headers every client factory attaches: bearer authorization
from the resolved `apiToken`, and a JSON content type. -/
def jsonHeaders (pc : ProjectConfig) : List (String × String) :=
  [("Authorization", "Bearer " ++ pc.apiToken), ("Content-Type", "application/json")]

/-- Models `createSMSClient` (src/src/sinch-server.ts lines 140-151):
base URL templated by `projectConfig.region || 'us'`. -/
def createSMSClient (pc : ProjectConfig) : AxiosClient :=
  { baseURL := "https://" ++ strOptOr pc.region "us" ++ ".sms.api.sinch.com"
    headers := jsonHeaders pc }

/-- Models `createNumbersClient` (lines 153-161): fixed base URL. -/
def createNumbersClient (pc : ProjectConfig) : AxiosClient :=
  { baseURL := "https://numbers.api.sinch.com", headers := jsonHeaders pc }

/-- Models `createVerificationClient` (lines 163-171): fixed base URL. -/
def createVerificationClient (pc : ProjectConfig) : AxiosClient :=
  { baseURL := "https://verification.api.sinch.com", headers := jsonHeaders pc }

/-- Models `createSubprojectClient` (lines 173-181): fixed base URL. -/
def createSubprojectClient (pc : ProjectConfig) : AxiosClient :=
  { baseURL := "https://subproject.api.sinch.com", headers := jsonHeaders pc }

inductive HTTPMethod where
  | get
  | post
  | put
  | delete
  deriving Repr, DecidableEq

/-- The single outbound HTTP request an operation issues. Query pairs are
kept unserialized (the source embeds `?${params}` in the path via
`URLSearchParams`); JSON bodies are not reified. -/
structure HTTPRequest where
  method : HTTPMethod
  baseURL : String
  headers : List (String × String)
  path : String
  query : List (String × String)
  deriving Repr, DecidableEq

/-- Issuing a verb method on a constructed client yields this request. -/
def request (c : AxiosClient) (m : HTTPMethod) (p : String)
    (q : List (String × String)) : HTTPRequest :=
  { method := m, baseURL := c.baseURL, headers := c.headers, path := p, query := q }

/-- The `options` bag accepted by `sendSMS`; these fields only feed the
JSON body, which is not modeled. -/
structure SMSOptions where
  delivery_report : Option String := none
  expire_at : Option String := none
  flash_message : Option Bool := none
  deriving Repr, DecidableEq

/-- Models `SinchAPIClient.sendSMS` (lines 210-227): resolve the project,
build the SMS client, `POST /xms/v1/{servicePlanId}/batches`. The
recipients, sender, body and options only populate the JSON body. -/
def sendSMS (cfg : SinchConfig) (_to : List String) (_sender _body : String)
    (_options : SMSOptions) (projectName : Option String) : Except String HTTPRequest :=
  match getProjectConfig cfg projectName with
  | .error e => .error e
  | .ok pc =>
    .ok (request (createSMSClient pc) .post ("/xms/v1/" ++ pc.servicePlanId ++ "/batches") [])

/-- Models `getSMSBatch` (lines 229-237). -/
def getSMSBatch (cfg : SinchConfig) (batchId : String) (projectName : Option String) :
    Except String HTTPRequest :=
  match getProjectConfig cfg projectName with
  | .error e => .error e
  | .ok pc =>
    .ok (request (createSMSClient pc) .get
      ("/xms/v1/" ++ pc.servicePlanId ++ "/batches/" ++ batchId) [])

/-- Models `getDeliveryReport` (lines 239-248). -/
def getDeliveryReport (cfg : SinchConfig) (batchId : String) (full : Bool)
    (projectName : Option String) : Except String HTTPRequest :=
  match getProjectConfig cfg projectName with
  | .error e => .error e
  | .ok pc =>
    .ok (request (createSMSClient pc) .get
      ("/xms/v1/" ++ pc.servicePlanId ++ "/batches/" ++ batchId ++ "/" ++
        (if full then "delivery_report/full" else "delivery_report/summary")) [])

/-- Models `listSMSBatches` (lines 250-262): optional date-range query
parameters are set only when truthy. -/
def listSMSBatches (cfg : SinchConfig) (startDate endDate : Option String)
    (projectName : Option String) : Except String HTTPRequest :=
  match getProjectConfig cfg projectName with
  | .error e => .error e
  | .ok pc =>
    .ok (request (createSMSClient pc) .get ("/xms/v1/" ++ pc.servicePlanId ++ "/batches")
      ((if strTruthy startDate then [("start_date", startDate.getD "")] else []) ++
       (if strTruthy endDate then [("end_date", endDate.getD "")] else [])))

/-- The precondition error of every Numbers-family operation
(e.g. src/src/sinch-server.ts line 308): `${projectName || 'default'}`
names the project used. -/
def numbersProjectIdError (projectName : Option String) : String :=
  "Project ID required for Numbers API. Please configure projectId for project '" ++
    strOptOr projectName "default" ++ "'"

/-- Models `searchAvailableNumbers` (lines 265-282): after resolution and
client construction, `if (!projectConfig.projectId) throw` fires before
the single GET is issued. -/
def searchAvailableNumbers (cfg : SinchConfig) (regionCode numberType : Option String)
    (capability : Option (List String)) (projectName : Option String) :
    Except String HTTPRequest :=
  match getProjectConfig cfg projectName with
  | .error e => .error e
  | .ok pc =>
    if strTruthy pc.projectId then
      .ok (request (createNumbersClient pc) .get
        ("/v1/projects/" ++ pc.projectId.getD "" ++ "/availableNumbers")
        ((if strTruthy regionCode then [("regionCode", regionCode.getD "")] else []) ++
         (if strTruthy numberType then [("type", numberType.getD "")] else []) ++
         (match capability with
          | some caps => if caps.isEmpty then [] else [("capability", String.intercalate "," caps)]
          | none => [])))
    else .error (numbersProjectIdError projectName)

/-- Models `activateNumber` (lines 284-301); the phone number and the
extra configurations populate the JSON body only. -/
def activateNumber (cfg : SinchConfig) (_phoneNumber : String)
    (_smsConfiguration _voiceConfiguration : Option String) (projectName : Option String) :
    Except String HTTPRequest :=
  match getProjectConfig cfg projectName with
  | .error e => .error e
  | .ok pc =>
    if strTruthy pc.projectId then
      .ok (request (createNumbersClient pc) .post
        ("/v1/projects/" ++ pc.projectId.getD "" ++ "/activeNumbers") [])
    else .error (numbersProjectIdError projectName)

/-- Models `listActiveNumbers` (lines 303-315). -/
def listActiveNumbers (cfg : SinchConfig) (projectName : Option String) :
    Except String HTTPRequest :=
  match getProjectConfig cfg projectName with
  | .error e => .error e
  | .ok pc =>
    if strTruthy pc.projectId then
      .ok (request (createNumbersClient pc) .get
        ("/v1/projects/" ++ pc.projectId.getD "" ++ "/activeNumbers") [])
    else .error (numbersProjectIdError projectName)

/-- Characters `encodeURIComponent` leaves unescaped (ECMA-262:
ASCII alphanumerics and `- _ . ! ~ * ' ( )`). -/
def uriUnreserved (c : Char) : Bool :=
  (c ≥ 'A' && c ≤ 'Z') || (c ≥ 'a' && c ≤ 'z') || (c ≥ '0' && c ≤ '9') ||
  c == '-' || c == '_' || c == '.' || c == '!' || c == '~' || c == '*' ||
  c == '\'' || c == '(' || c == ')'

/-- Uppercase hexadecimal digit for a value below 16. -/
def hexUpper (n : Nat) : Char :=
  if n < 10 then Char.ofNat (48 + n) else Char.ofNat (55 + n)

/-- `%XX` escape of one byte. -/
def percentEncodeByte (b : Nat) : List Char :=
  ['%', hexUpper (b / 16), hexUpper (b % 16)]

/-- UTF-8 encoding of one Unicode scalar value as a byte list. -/
def charUTF8Bytes (c : Char) : List Nat :=
  let n := c.toNat
  if n < 0x80 then [n]
  else if n < 0x800 then [0xC0 + n / 64, 0x80 + n % 64]
  else if n < 0x10000 then [0xE0 + n / 4096, 0x80 + (n / 64) % 64, 0x80 + n % 64]
  else [0xF0 + n / 262144, 0x80 + (n / 4096) % 64, 0x80 + (n / 64) % 64, 0x80 + n % 64]

/-- Models the ECMAScript `encodeURIComponent` builtin: unreserved
characters pass through, every other character is UTF-8 encoded and each
byte written as an uppercase `%XX` escape (so `'+'` becomes `"%2B"`). -/
def encodeURIComponent (s : String) : String :=
  String.mk ((s.data.map (fun c =>
    if uriUnreserved c then [c]
    else ((charUTF8Bytes c).map percentEncodeByte).flatten)).flatten)

example : encodeURIComponent "+12025550123" = "%2B12025550123" := by decide

/-- Value of an ASCII hexadecimal digit, if it is one. -/
def hexVal (c : Char) : Option Nat :=
  if '0' ≤ c && c ≤ '9' then some (c.toNat - 48)
  else if 'A' ≤ c && c ≤ 'F' then some (c.toNat - 55)
  else if 'a' ≤ c && c ≤ 'f' then some (c.toNat - 87)
  else none

/-- One unit of a percent-encoded string: an escaped byte or a plain
character. -/
inductive DecUnit where
  | byte (b : Nat)
  | chr (c : Char)
  deriving Repr, DecidableEq

/-- Splits a character list into escaped bytes and plain characters;
fails (as `decodeURIComponent` throws `URIError`) when a `%` is not
followed by two hexadecimal digits. -/
def percentUnits : List Char → Option (List DecUnit)
  | [] => some []
  | '%' :: h :: l :: rest =>
    match hexVal h, hexVal l with
    | some hv, some lv => (DecUnit.byte (16 * hv + lv) :: ·) <$> percentUnits rest
    | _, _ => none
  | '%' :: _ => none
  | c :: rest => (DecUnit.chr c :: ·) <$> percentUnits rest

/-- Whether a byte is a UTF-8 continuation byte. -/
def isContByte (b : Nat) : Bool := 0x80 ≤ b && b < 0xC0

/-- Strict UTF-8 decoding of a byte list (rejecting overlong forms,
surrogates and out-of-range values, as `decodeURIComponent` does). -/
def utf8DecodeBytes : List Nat → Option (List Char)
  | [] => some []
  | b :: rest =>
    if b < 0x80 then (Char.ofNat b :: ·) <$> utf8DecodeBytes rest
    else if b < 0xC2 then none
    else if b < 0xE0 then
      match rest with
      | b2 :: rest2 =>
        if isContByte b2 then
          (Char.ofNat ((b - 0xC0) * 64 + (b2 - 0x80)) :: ·) <$> utf8DecodeBytes rest2
        else none
      | [] => none
    else if b < 0xF0 then
      match rest with
      | b2 :: b3 :: rest3 =>
        if isContByte b2 && isContByte b3 then
          let v := (b - 0xE0) * 4096 + (b2 - 0x80) * 64 + (b3 - 0x80)
          if 0x800 ≤ v && !(0xD800 ≤ v && v < 0xE000) then
            (Char.ofNat v :: ·) <$> utf8DecodeBytes rest3
          else none
        else none
      | _ => none
    else if b < 0xF5 then
      match rest with
      | b2 :: b3 :: b4 :: rest4 =>
        if isContByte b2 && isContByte b3 && isContByte b4 then
          let v := (b - 0xF0) * 262144 + (b2 - 0x80) * 4096 + (b3 - 0x80) * 64 + (b4 - 0x80)
          if 0x10000 ≤ v && v < 0x110000 then
            (Char.ofNat v :: ·) <$> utf8DecodeBytes rest4
          else none
        else none
      | _ => none
    else none

/-- Models the ECMAScript `decodeURIComponent` builtin; `none` stands for
a thrown `URIError`. Escaped bytes and the UTF-8 bytes of the plain
characters are decoded as one stream: a plain character never starts
with a continuation byte, so this agrees with the builtin. -/
def decodeURIComponent? (s : String) : Option String :=
  match percentUnits s.data with
  | none => none
  | some units =>
    match utf8DecodeBytes ((units.map (fun u =>
      match u with
      | .byte b => [b]
      | .chr c => charUTF8Bytes c)).flatten) with
    | none => none
    | some chars => some (String.mk chars)

example : decodeURIComponent? "%2B1202" = some "+1202" := by decide
example : decodeURIComponent? (encodeURIComponent "+1 (202)~x") = some "+1 (202)~x" := by decide

/-- Models `getActiveNumber` (src/src/sinch-server.ts lines 317-329):
`GET /v1/projects/{projectId}/activeNumbers/{encodeURIComponent(phoneNumber)}`
after the project-identifier precondition. -/
def getActiveNumber (cfg : SinchConfig) (phoneNumber : String)
    (projectName : Option String) : Except String HTTPRequest :=
  match getProjectConfig cfg projectName with
  | .error e => .error e
  | .ok pc =>
    if strTruthy pc.projectId then
      .ok (request (createNumbersClient pc) .get
        ("/v1/projects/" ++ pc.projectId.getD "" ++ "/activeNumbers/" ++
          encodeURIComponent phoneNumber) [])
    else .error (numbersProjectIdError projectName)

/-- Models `releaseNumber` (lines 331-343). -/
def releaseNumber (cfg : SinchConfig) (phoneNumber : String)
    (projectName : Option String) : Except String HTTPRequest :=
  match getProjectConfig cfg projectName with
  | .error e => .error e
  | .ok pc =>
    if strTruthy pc.projectId then
      .ok (request (createNumbersClient pc) .delete
        ("/v1/projects/" ++ pc.projectId.getD "" ++ "/activeNumbers/" ++
          encodeURIComponent phoneNumber) [])
    else .error (numbersProjectIdError projectName)

/-- The `options` bag of `startVerification`; body-only fields. -/
structure VerificationOptions where
  custom : Option String := none
  reference : Option String := none
  deriving Repr, DecidableEq

/-- Models `startVerification` (lines 346-362); identity, method and
options populate the JSON body only. -/
def startVerification (cfg : SinchConfig) (_identity _method : String)
    (_options : VerificationOptions) (projectName : Option String) :
    Except String HTTPRequest :=
  match getProjectConfig cfg projectName with
  | .error e => .error e
  | .ok pc =>
    .ok (request (createVerificationClient pc) .post "/verification/v1/verifications" [])

/-- Models `reportVerification` (lines 364-373). -/
def reportVerification (cfg : SinchConfig) (id _code : String)
    (projectName : Option String) : Except String HTTPRequest :=
  match getProjectConfig cfg projectName with
  | .error e => .error e
  | .ok pc =>
    .ok (request (createVerificationClient pc) .put
      ("/verification/v1/verifications/id/" ++ id) [])

/-- Models `getVerification` (lines 375-383). -/
def getVerification (cfg : SinchConfig) (id : String)
    (projectName : Option String) : Except String HTTPRequest :=
  match getProjectConfig cfg projectName with
  | .error e => .error e
  | .ok pc =>
    .ok (request (createVerificationClient pc) .get
      ("/verification/v1/verifications/id/" ++ id) [])

/-- The `options` bag of `createSubproject`; body-only field. -/
structure SubprojectOptions where
  description : Option String := none
  deriving Repr, DecidableEq

/-- Models `createSubproject` (lines 386-398). -/
def createSubproject (cfg : SinchConfig) (parentProjectId : String)
    (_displayName : String) (_options : SubprojectOptions)
    (projectName : Option String) : Except String HTTPRequest :=
  match getProjectConfig cfg projectName with
  | .error e => .error e
  | .ok pc =>
    .ok (request (createSubprojectClient pc) .post
      ("/v1alpha1/projects/" ++ parentProjectId ++ "/subprojects") [])

/-- Models `listSubprojects` (lines 400-408). -/
def listSubprojects (cfg : SinchConfig) (parentProjectId : String)
    (projectName : Option String) : Except String HTTPRequest :=
  match getProjectConfig cfg projectName with
  | .error e => .error e
  | .ok pc =>
    .ok (request (createSubprojectClient pc) .get
      ("/v1alpha1/projects/" ++ parentProjectId ++ "/subprojects") [])

/-- Models `getSubproject` (lines 410-418). -/
def getSubproject (cfg : SinchConfig) (parentProjectId subprojectId : String)
    (projectName : Option String) : Except String HTTPRequest :=
  match getProjectConfig cfg projectName with
  | .error e => .error e
  | .ok pc =>
    .ok (request (createSubprojectClient pc) .get
      ("/v1alpha1/projects/" ++ parentProjectId ++ "/subprojects/" ++ subprojectId) [])

/-- Models `deleteSubproject` (lines 420-428). -/
def deleteSubproject (cfg : SinchConfig) (parentProjectId subprojectId : String)
    (projectName : Option String) : Except String HTTPRequest :=
  match getProjectConfig cfg projectName with
  | .error e => .error e
  | .ok pc =>
    .ok (request (createSubprojectClient pc) .delete
      ("/v1alpha1/projects/" ++ parentProjectId ++ "/subprojects/" ++ subprojectId) [])

/-- One entry of `listConfiguredProjects`. -/
structure ConfiguredProject where
  name : String
  displayName : String
  projectId : Option String
  deriving Repr, DecidableEq

/-- Models `listConfiguredProjects` (lines 184-207): one entry per named
project in insertion order (`displayName: config.displayName || name`),
plus a trailing `default` entry when the legacy pair is truthy. -/
def listConfiguredProjects (cfg : SinchConfig) : List ConfiguredProject :=
  (match cfg.projects with
   | some m => m.map (fun nc =>
       { name := nc.1, displayName := strOptOr nc.2.displayName nc.1, projectId := nc.2.projectId })
   | none => []) ++
  (if strTruthy cfg.servicePlanId && strTruthy cfg.apiToken then
     [{ name := "default", displayName := "Default Project", projectId := cfg.projectId }]
   else [])

/-- One entry of the aggregate-list result. `error := none` models the
success shape `{parentProjectId, subprojects}` (no `error` key); failures
record `{parentProjectId, error, subprojects: []}`. -/
structure ParentListResult where
  parentProjectId : String
  subprojects : List String
  error : Option String
  deriving Repr, DecidableEq

/-- One entry of the connectivity-test result. -/
structure ParentAccessResult where
  parentProjectId : String
  status : String
  message : String
  deriving Repr, DecidableEq

/-- Models lines 432-435 and 459-462 of src/src/sinch-server.ts:
`const parentProjects = this.config.parentProjects || [];` followed by
`if (this.config.projectId) parentProjects.push(this.config.projectId);`.
When the stored `parentProjects` array is present (JavaScript arrays are
truthy even when empty), the local name aliases it, so the `push`
mutates the configuration singleton in place; the returned configuration
is the state of the singleton after the call. -/
def combinedParentList (cfg : SinchConfig) : List String × SinchConfig :=
  match cfg.parentProjects with
  | some l =>
    if strTruthy cfg.projectId then
      (l ++ [cfg.projectId.getD ""], { cfg with parentProjects := some (l ++ [cfg.projectId.getD ""]) })
    else (l, cfg)
  | none =>
    if strTruthy cfg.projectId then ([cfg.projectId.getD ""], cfg)
    else ([], cfg)

/-- One iteration of the aggregate-list loop (lines 438-453): the
per-parent `listSubprojects` call is abstracted by `fetch`, whose `.ok`
value is the `response.subprojects` field (absent field modelled by
`none`, defaulted by `|| []`); a caught error is recorded in the entry. -/
def aggregateEntry (fetch : String → Except String (Option (List String)))
    (pid : String) : ParentListResult :=
  match fetch pid with
  | .ok resp => { parentProjectId := pid, subprojects := resp.getD [], error := none }
  | .error e => { parentProjectId := pid, subprojects := [], error := some e }

/-- The sequential `for` loop of `getAllSubprojectsAcrossParents`
(lines 437-453), one entry pushed per parent identifier. -/
def aggregateListLoop (fetch : String → Except String (Option (List String))) :
    List String → List ParentListResult
  | [] => []
  | pid :: rest => aggregateEntry fetch pid :: aggregateListLoop fetch rest

/-- Models `SinchAPIClient.getAllSubprojectsAcrossParents`
(lines 431-455), returning the collected entries and the state of the
configuration singleton after the call. -/
def getAllSubprojectsAcrossParents (fetch : String → Except String (Option (List String)))
    (cfg : SinchConfig) : List ParentListResult × SinchConfig :=
  match combinedParentList cfg with
  | (ps, cfg2) => (aggregateListLoop fetch ps, cfg2)

/-- One iteration of the connectivity-test loop (lines 465-481). -/
def accessEntry (fetch : String → Except String (Option (List String)))
    (pid : String) : ParentAccessResult :=
  match fetch pid with
  | .ok _ =>
    { parentProjectId := pid, status := "accessible", message := "Successfully connected" }
  | .error e => { parentProjectId := pid, status := "error", message := e }

/-- The sequential `for` loop of `testParentProjectAccess`. -/
def accessLoop (fetch : String → Except String (Option (List String))) :
    List String → List ParentAccessResult
  | [] => []
  | pid :: rest => accessEntry fetch pid :: accessLoop fetch rest

/-- Models `SinchAPIClient.testParentProjectAccess` (lines 458-483). -/
def testParentProjectAccess (fetch : String → Except String (Option (List String)))
    (cfg : SinchConfig) : List ParentAccessResult × SinchConfig :=
  match combinedParentList cfg with
  | (ps, cfg2) => (accessLoop fetch ps, cfg2)

/-- The environment values read by `getSinchClient` and `main`.
`projectsParsed` is the value of the local `projects` variable after the
`JSON.parse` try/catch (src/src/sinch-server.ts lines 496-504): `some`
iff `SINCH_PROJECTS` was set, parsed without throwing, and produced a
truthy value (an object; `{}` gives `some []`); unset, malformed (the
error is logged and swallowed) and falsy-parse cases are all `none`. -/
structure Env where
  servicePlanId : Option String := none
  apiToken : Option String := none
  projectId : Option String := none
  clientId : Option String := none
  clientSecret : Option String := none
  region : Option String := none
  parentProjectsRaw : Option String := none
  projectsParsed : Option (List (String × ProjectConfig)) := none
  defaultProject : Option String := none
  deriving Repr, DecidableEq

/-- Models the JavaScript `String.prototype.trim`: strips leading and
trailing whitespace. -/
def jsTrim (s : String) : String :=
  String.mk ((s.data.dropWhile Char.isWhitespace).reverse.dropWhile Char.isWhitespace).reverse

/-- Models line 493: `parentProjectsEnv ? parentProjectsEnv.split(',').map(p => p.trim()) : []`. -/
def parseParentProjects (raw : Option String) : List String :=
  if strTruthy raw then (splitOnChar ',' (raw.getD "")).map jsTrim else []

/-- The `SinchConfig` literal of `getSinchClient` (lines 506-519). -/
def buildConfigFromEnv (env : Env) : SinchConfig :=
  { servicePlanId := env.servicePlanId
    apiToken := env.apiToken
    projectId := env.projectId
    appId := none
    clientId := env.clientId
    clientSecret := env.clientSecret
    region := some (strOptOr env.region "us")
    parentProjects := some (parseParentProjects env.parentProjectsRaw)
    projects := env.projectsParsed
    defaultProject := env.defaultProject }

/-- Error message of the `getSinchClient` validation (line 523). -/
def clientConfigRequiredMsg : String :=
  "Either legacy config (SINCH_SERVICE_PLAN_ID + SINCH_API_TOKEN) or SINCH_PROJECTS environment variable is required"

/-- Models `getSinchClient` (src/src/sinch-server.ts lines 489-529)
without the memoisation: builds the configuration from the environment
and applies the validation
`if ((!config.servicePlanId || !config.apiToken) && !projects) throw`.
The result is the configuration of the constructed `SinchAPIClient`;
`.error` is the configuration error thrown on the first call that needs
a client. -/
def getSinchClientConfig (env : Env) : Except String SinchConfig :=
  let config := buildConfigFromEnv env
  if (!(strTruthy config.servicePlanId) || !(strTruthy config.apiToken)) &&
      env.projectsParsed.isNone then
    .error clientConfigRequiredMsg
  else .ok config

/-- Models the startup validation of `main` (src/build/index.js
lines 37-51): `process.exit(1)` (modelled as `.error`) when either
legacy environment variable is missing, before the transport connects. -/
def mainStartupCheck (env : Env) : Except String Unit :=
  if !(strTruthy env.servicePlanId) then
    .error "SINCH_SERVICE_PLAN_ID environment variable is required"
  else if !(strTruthy env.apiToken) then
    .error "SINCH_API_TOKEN environment variable is required"
  else .ok ()

/-- The argument bag of a tool call (`request.params.arguments`);
every property is absent (`none`) unless supplied. The JSON key `from`
is `fromNumber` here and `type` is `numberType` (Lean keywords);
`sms_configuration` and `voice_configuration` are body-only opaque
values, kept as raw text; the JSON key `to` is `toRecipients`. -/
structure ToolArgs where
  toRecipients : Option (List String) := none
  fromNumber : Option String := none
  body : Option String := none
  delivery_report : Option String := none
  expire_at : Option String := none
  flash_message : Option Bool := none
  batch_id : Option String := none
  full : Option Bool := none
  start_date : Option String := none
  end_date : Option String := none
  region_code : Option String := none
  numberType : Option String := none
  capability : Option (List String) := none
  phone_number : Option String := none
  sms_configuration : Option String := none
  voice_configuration : Option String := none
  method : Option String := none
  custom : Option String := none
  reference : Option String := none
  verification_id : Option String := none
  code : Option String := none
  parent_project_id : Option String := none
  subproject_id : Option String := none
  display_name : Option String := none
  description : Option String := none
  project_config : Option String := none
  deriving Repr, DecidableEq

/-- The value a tool handler returns on success (before the boundary
serializes it): a local project list, a remote response body (opaque
text), or an aggregate result collection. -/
inductive ToolOutcome where
  | projectList (l : List ConfiguredProject)
  | remote (body : String)
  | aggregateList (l : List ParentListResult)
  | aggregateTest (l : List ParentAccessResult)
  deriving Repr, DecidableEq

/-- Runs an operation that returns its single `HTTPRequest` through the
transport oracle `net` (models `await client.verb(...)` returning
`response.data`, or the transport throwing). -/
def runRemote (net : HTTPRequest → Except String String)
    (op : Except String HTTPRequest) : Except String ToolOutcome :=
  match op with
  | .error e => .error e
  | .ok req =>
    match net req with
    | .error e => .error e
    | .ok body => .ok (ToolOutcome.remote body)

/-- The per-parent probe used by both aggregate tools:
`await this.listSubprojects(parentProjectId)` followed by the
`response.subprojects` property access, which `subsOf` models on the
opaque response body. -/
def subprojectsFetch (cfg : SinchConfig) (net : HTTPRequest → Except String String)
    (subsOf : String → Option (List String)) (pid : String) :
    Except String (Option (List String)) :=
  match listSubprojects cfg pid none with
  | .error e => .error e
  | .ok req =>
    match net req with
    | .error e => .error e
    | .ok body => .ok (subsOf body)

/-- Models `handleToolCall` (src/build/tools.js lines 424-477): the
`switch` over the tool name, each arm delegating to the corresponding
client method with arguments drawn from the bag (`jsArg` supplies the
string coercion of an absent required argument; `args.full` defaults to
`false` through the method's default parameter). Returns the handler's
result or thrown error, and the configuration singleton's state after
the call (only the aggregate arms mutate it). -/
def dispatchTool (cfg : SinchConfig) (net : HTTPRequest → Except String String)
    (subsOf : String → Option (List String)) (name : String) (args : ToolArgs) :
    Except String ToolOutcome × SinchConfig :=
  if name == "list_configured_projects" then
    (.ok (ToolOutcome.projectList (listConfiguredProjects cfg)), cfg)
  else if name == "send_sms" then
    (runRemote net (sendSMS cfg (args.toRecipients.getD []) (jsArg args.fromNumber) (jsArg args.body)
      { delivery_report := args.delivery_report, expire_at := args.expire_at,
        flash_message := args.flash_message } args.project_config), cfg)
  else if name == "get_sms_batch" then
    (runRemote net (getSMSBatch cfg (jsArg args.batch_id) args.project_config), cfg)
  else if name == "get_delivery_report" then
    (runRemote net (getDeliveryReport cfg (jsArg args.batch_id) (args.full.getD false)
      args.project_config), cfg)
  else if name == "list_sms_batches" then
    (runRemote net (listSMSBatches cfg args.start_date args.end_date args.project_config), cfg)
  else if name == "search_available_numbers" then
    (runRemote net (searchAvailableNumbers cfg args.region_code args.numberType
      args.capability args.project_config), cfg)
  else if name == "activate_number" then
    (runRemote net (activateNumber cfg (jsArg args.phone_number) args.sms_configuration
      args.voice_configuration args.project_config), cfg)
  else if name == "list_active_numbers" then
    (runRemote net (listActiveNumbers cfg args.project_config), cfg)
  else if name == "get_active_number" then
    (runRemote net (getActiveNumber cfg (jsArg args.phone_number) args.project_config), cfg)
  else if name == "release_number" then
    (runRemote net (releaseNumber cfg (jsArg args.phone_number) args.project_config), cfg)
  else if name == "start_verification" then
    (runRemote net (startVerification cfg (jsArg args.phone_number) (jsArg args.method)
      { custom := args.custom, reference := args.reference } args.project_config), cfg)
  else if name == "report_verification" then
    (runRemote net (reportVerification cfg (jsArg args.verification_id) (jsArg args.code)
      args.project_config), cfg)
  else if name == "get_verification" then
    (runRemote net (getVerification cfg (jsArg args.verification_id) args.project_config), cfg)
  else if name == "create_subproject" then
    (runRemote net (createSubproject cfg (jsArg args.parent_project_id)
      (jsArg args.display_name) { description := args.description } args.project_config), cfg)
  else if name == "list_subprojects" then
    (runRemote net (listSubprojects cfg (jsArg args.parent_project_id) args.project_config), cfg)
  else if name == "get_subproject" then
    (runRemote net (getSubproject cfg (jsArg args.parent_project_id)
      (jsArg args.subproject_id) args.project_config), cfg)
  else if name == "delete_subproject" then
    (runRemote net (deleteSubproject cfg (jsArg args.parent_project_id)
      (jsArg args.subproject_id) args.project_config), cfg)
  else if name == "list_all_subprojects" then
    match getAllSubprojectsAcrossParents (subprojectsFetch cfg net subsOf) cfg with
    | (res, cfg2) => (.ok (ToolOutcome.aggregateList res), cfg2)
  else if name == "test_parent_projects" then
    match testParentProjectAccess (subprojectsFetch cfg net subsOf) cfg with
    | (res, cfg2) => (.ok (ToolOutcome.aggregateTest res), cfg2)
  else (.error ("Unknown tool: " ++ name), cfg)

/-- The body of the `CallToolRequestSchema` handler's `try` block
(src/build/index.js line 18): `getSinchClient()` (which may throw the
configuration error) followed by the tool dispatch. `clientConfig` is
the outcome of `getSinchClient()`. -/
def handleToolCallRun (clientConfig : Except String SinchConfig)
    (net : HTTPRequest → Except String String) (subsOf : String → Option (List String))
    (name : String) (args : ToolArgs) : Except String ToolOutcome :=
  match clientConfig with
  | .error e => .error e
  | .ok cfg => (dispatchTool cfg net subsOf name args).1

/-- The result payload returned to the protocol client: the single text
content block and the error flag (absent on success, modelled `false`). -/
structure CallToolResult where
  text : String
  isError : Bool
  deriving Repr, DecidableEq

/-- Models the `CallToolRequestSchema` handler (src/build/index.js
lines 16-36): the one `try`/`catch` around `handleToolCall`; a success
is serialized with `JSON.stringify(result, null, 2)` (the serializer is
the `serialize` parameter), a caught error becomes the error-flagged
payload `Error: ${errorMessage}`. -/
def callToolRequestHandler (serialize : ToolOutcome → String)
    (clientConfig : Except String SinchConfig)
    (net : HTTPRequest → Except String String) (subsOf : String → Option (List String))
    (name : String) (args : ToolArgs) : CallToolResult :=
  match handleToolCallRun clientConfig net subsOf name args with
  | .ok result => { text := serialize result, isError := false }
  | .error e => { text := "Error: " ++ e, isError := true }

/-- The components of a parsed URL that the read handler consults. -/
structure URLParts where
  protocol : String
  host : String
  pathname : String
  deriving Repr, DecidableEq

/-- First character a URL scheme may start with. -/
def isSchemeStart (c : Char) : Bool :=
  (c ≥ 'a' && c ≤ 'z') || (c ≥ 'A' && c ≤ 'Z')

/-- Characters a URL scheme may continue with. -/
def isSchemeChar (c : Char) : Bool :=
  isSchemeStart c || (c ≥ '0' && c ≤ '9') || c == '+' || c == '-' || c == '.'

/-- Splits leading scheme characters from the rest at the first `:`. -/
def schemeSplit : List Char → Option (List Char × List Char)
  | [] => none
  | c :: rest =>
    if c == ':' then some ([], rest)
    else if isSchemeChar c then
      (fun p => (c :: p.1, p.2)) <$> schemeSplit rest
    else none

/-- Models the WHATWG `new URL(uri)` constructor (the `URL` class used at
src/src/sinch-server.ts line 589) on the inputs this program builds:
absolute URIs without `?`, `#`, `\`, userinfo, port or dot segments.
For a non-special scheme the parser lowercases the scheme, and when the
scheme is followed by `//` it consumes an authority: the host is
everything up to the next `/`, and the pathname starts at that `/` (so
in `sinch://sms/batch/1` the host is `sms` and the pathname is
`/batch/1`). Without `//` the remainder is an opaque path. `none` models
the constructor throwing `TypeError: Invalid URL`. -/
def parseURL (uri : String) : Option URLParts :=
  match schemeSplit uri.data with
  | none => none
  | some (schemeChars, rest) =>
    match schemeChars with
    | [] => none
    | c :: _ =>
      if isSchemeStart c then
        let protocol := String.mk (schemeChars.map Char.toLower) ++ ":"
        match rest with
        | '/' :: '/' :: rest2 =>
          some { protocol := protocol
                 host := String.mk (rest2.takeWhile (fun ch => ch != '/'))
                 pathname := String.mk (rest2.dropWhile (fun ch => ch != '/')) }
        | _ => some { protocol := protocol, host := "", pathname := String.mk rest }
      else none

example : parseURL "sinch://sms/batch/B1" =
    some { protocol := "sinch:", host := "sms", pathname := "/batch/B1" } := by decide

/-- The URI the list handler synthesizes for an SMS batch
(src/src/sinch-server.ts line 561). -/
def makeBatchURI (batchId : String) : String :=
  "sinch://sms/batch/" ++ batchId

/-- The URI the list handler synthesizes for an active number
(src/src/sinch-server.ts line 573), percent-encoding the phone number. -/
def makeNumberURI (phoneNumber : String) : String :=
  "sinch://numbers/active/" ++ encodeURIComponent phoneNumber

/-- The remote call the read handler maps a recognized URI to. -/
inductive ReadAction where
  | getBatch (batchId : String)
  | getActiveNumber (phoneNumber : String)
  deriving Repr, DecidableEq

/-- Models the routing of the `ReadResourceRequestSchema` handler
(src/src/sinch-server.ts lines 588-621): parse the URI with `new URL`,
require protocol `sinch:`, split `url.pathname` on `/` dropping empty
segments (`filter(Boolean)`), then match `sms/batch/{id}` (mapped to
`getSMSBatch`) or `numbers/active/{id}` (percent-decoded, mapped to
`getActiveNumber`); everything else throws
`Resource not found: ${uri}`. -/
def readResourceRoute (uri : String) : Except String ReadAction :=
  match parseURL uri with
  | none => .error ("Invalid URL: " ++ uri)
  | some u =>
    if u.protocol == "sinch:" then
      match (splitOnChar '/' u.pathname).filter (fun s => s != "") with
      | "sms" :: "batch" :: batchId :: _ => .ok (ReadAction.getBatch batchId)
      | "numbers" :: "active" :: enc :: _ =>
        match decodeURIComponent? enc with
        | some ph => .ok (ReadAction.getActiveNumber ph)
        | none => .error "URIError: URI malformed"
      | _ => .error ("Resource not found: " ++ uri)
    else .error ("Resource not found: " ++ uri)

/-! ## Helper lemmas -/

theorem aggregateEntry_pid (fetch : String → Except String (Option (List String)))
    (pid : String) : (aggregateEntry fetch pid).parentProjectId = pid := by
  unfold aggregateEntry
  cases fetch pid <;> rfl

theorem aggregateListLoop_map (fetch : String → Except String (Option (List String)))
    (l : List String) :
    (aggregateListLoop fetch l).map ParentListResult.parentProjectId = l := by
  induction l with
  | nil => rfl
  | cons pid rest ih =>
    simp [aggregateListLoop, aggregateEntry_pid, ih]

theorem aggregateListLoop_mem (fetch : String → Except String (Option (List String)))
    (l : List String) (r : ParentListResult) (hr : r ∈ aggregateListLoop fetch l) :
    r = aggregateEntry fetch r.parentProjectId := by
  induction l with
  | nil => simp [aggregateListLoop] at hr
  | cons pid rest ih =>
    simp only [aggregateListLoop, List.mem_cons] at hr
    rcases hr with h | h
    · subst h
      rw [aggregateEntry_pid]
    · exact ih h

theorem getProjectConfig_none_error (cfg : SinchConfig) (e : String)
    (h : getProjectConfig cfg none = .error e) : e = noValidConfigMsg := by
  unfold getProjectConfig at h
  simp only [strTruthy, Bool.false_eq_true, if_false] at h
  split at h
  · exact absurd h (by simp)
  · split at h
    · exact absurd h (by simp)
    · exact (Except.error.injEq _ _).mp h.symm

/-! ## Claim theorems -/

/-- C2: for every non-empty project name `p` that the named-project
mapping does not contain (including when no mapping is configured at
all), `getProjectConfig` fails with the "not found" error naming `p`,
and never falls back to the default project or the legacy
configuration, regardless of whether those are populated. (The empty
string is not a given project name: `if (projectName)` treats it as the
no-argument call, the behavior pinned separately for C10.) -/
theorem resolve_unknown_project_fails (cfg : SinchConfig) (p : String) (hp : p ≠ "")
    (h : cfg.projects.bind (fun m => lookupProj m p) = none) :
    getProjectConfig cfg (some p) = .error (projectNotFoundMsg p) := by
  unfold getProjectConfig
  have ht : strTruthy (some p) = true := by
    simp [strTruthy, hp]
  rw [ht]
  simp [h]

/-- Witness for C2: with both the legacy pair and a default project
fully populated, resolving the unknown name "beta" still fails with the
"not found" error rather than falling back. -/
def w2pc : ProjectConfig := { servicePlanId := "spA", apiToken := "tokA" }

def w2cfg : SinchConfig :=
  { servicePlanId := some "spL", apiToken := some "tokL",
    projects := some [("alpha", w2pc)], defaultProject := some "alpha" }

theorem resolve_unknown_project_fails_w :
    getProjectConfig w2cfg (some "beta") = .error (projectNotFoundMsg "beta") :=
  resolve_unknown_project_fails w2cfg "beta" (by decide) (by decide)

/-- C7: for a call with no project-name argument, if a (non-empty)
default project name is configured and present in the named-project
mapping, `getProjectConfig` returns that named configuration's bundle —
unconditionally in the legacy fields, so in particular also when
`servicePlanId` and `apiToken` are fully populated. -/
theorem resolve_prefers_default_named (cfg : SinchConfig) (d : String) (pc : ProjectConfig)
    (hd : cfg.defaultProject = some d) (hne : d ≠ "")
    (hm : cfg.projects.bind (fun m => lookupProj m d) = some pc) :
    getProjectConfig cfg none = .ok pc := by
  unfold getProjectConfig
  simp [strTruthy, hd, hne, hm]

/-- Witness for C7: legacy fields fully populated with a different
credential bundle, yet the default named configuration wins. -/
def w7pc : ProjectConfig :=
  { servicePlanId := "spN", apiToken := "tokN", projectId := some "pidN" }

def w7cfg : SinchConfig :=
  { servicePlanId := some "spL", apiToken := some "tokL", projectId := some "pidL",
    projects := some [("main", w7pc)], defaultProject := some "main" }

theorem resolve_prefers_default_named_w : getProjectConfig w7cfg none = .ok w7pc :=
  resolve_prefers_default_named w7cfg "main" w7pc rfl (by decide) (by decide)

/-- C10: resolving with the empty-string project name takes exactly the
no-argument path of `getProjectConfig` (default project, then legacy,
then the "no valid project configuration" error), and therefore can
never produce the "named configuration not found" error: any error it
produces is `noValidConfigMsg`. -/
theorem empty_project_name_is_default_path (cfg : SinchConfig) :
    getProjectConfig cfg (some "") = getProjectConfig cfg none ∧
    (∀ e, getProjectConfig cfg (some "") = .error e → e = noValidConfigMsg) := by
  have heq : getProjectConfig cfg (some "") = getProjectConfig cfg none := rfl
  exact ⟨heq, fun e h => getProjectConfig_none_error cfg e (heq ▸ h)⟩

/-- Witness for C10: a configuration with neither a usable default nor
legacy fields; the empty-string call errors with `noValidConfigMsg`,
not with the "not found" message. -/
def w10cfg : SinchConfig := { projects := some [("solo", w2pc)] }

theorem empty_project_name_is_default_path_w :
    getProjectConfig w10cfg (some "") = getProjectConfig w10cfg none ∧
    noValidConfigMsg = noValidConfigMsg :=
  ⟨(empty_project_name_is_default_path w10cfg).1,
   (empty_project_name_is_default_path w10cfg).2 noValidConfigMsg (by decide)⟩

/-- C3: every Numbers-family operation (search available, activate,
list active, get active, release) fails with the exact
"Project ID required for Numbers API" error naming the project used
whenever the resolved configuration's `projectId` is absent or empty —
and, since a failed operation returns no `HTTPRequest`, no HTTP request
is issued before this failure. The last conjunct pins the error text
for a call with no project-name argument: it names `'default'`. -/
theorem numbers_requires_project_id (cfg : SinchConfig) (pn : Option String)
    (pc : ProjectConfig) (h : getProjectConfig cfg pn = .ok pc)
    (hid : strTruthy pc.projectId = false) :
    (∀ rc ty cap, searchAvailableNumbers cfg rc ty cap pn =
      .error (numbersProjectIdError pn)) ∧
    (∀ ph sc vc, activateNumber cfg ph sc vc pn = .error (numbersProjectIdError pn)) ∧
    listActiveNumbers cfg pn = .error (numbersProjectIdError pn) ∧
    (∀ ph, getActiveNumber cfg ph pn = .error (numbersProjectIdError pn)) ∧
    (∀ ph, releaseNumber cfg ph pn = .error (numbersProjectIdError pn)) ∧
    numbersProjectIdError none =
      "Project ID required for Numbers API. Please configure projectId for project 'default'" := by
  refine ⟨?_, ?_, ?_, ?_, ?_, by decide⟩ <;>
    first
    | (intro rc ty cap; simp [searchAvailableNumbers, h, hid])
    | (intro ph sc vc; simp [activateNumber, h, hid])
    | simp [listActiveNumbers, h, hid]
    | (intro ph; simp [getActiveNumber, h, hid])
    | (intro ph; simp [releaseNumber, h, hid])

/-- Witness for C3 (the spec's scenario): legacy-only configuration
without `PROJECT_ID`; "list active numbers" with no project-name
argument fails with the precondition error naming project `default`. -/
def w3cfg : SinchConfig := { servicePlanId := some "sp", apiToken := some "tok" }

def w3pc : ProjectConfig := { servicePlanId := "sp", apiToken := "tok", region := some "us" }

theorem numbers_requires_project_id_w :
    listActiveNumbers w3cfg none =
      .error "Project ID required for Numbers API. Please configure projectId for project 'default'" := by
  have h := numbers_requires_project_id w3cfg none w3pc (by decide) (by decide)
  rw [h.2.2.1, h.2.2.2.2.2]

/-- C9: with the default project "staging" configured as
`servicePlanId sp1 / apiToken tok1 / region eu`, a send-SMS call with no
project-name argument produces the POST request against base URL
`https://eu.sms.api.sinch.com` with header `Authorization: Bearer tok1`
and path `/xms/v1/sp1/batches`; in general the SMS client's base URL is
templated by the resolved configuration's region (defaulting to `us`),
its headers carry the resolved bearer token, and every successful
send-SMS call posts to the `servicePlanId`-templated batches path. -/
def c9pc : ProjectConfig := { servicePlanId := "sp1", apiToken := "tok1", region := some "eu" }

def c9cfg : SinchConfig := { projects := some [("staging", c9pc)], defaultProject := some "staging" }

theorem sms_request_templating :
    (sendSMS c9cfg ["+15551230000"] "+15550009999" "hello" {} none =
      .ok { method := .post, baseURL := "https://eu.sms.api.sinch.com",
            headers := [("Authorization", "Bearer tok1"), ("Content-Type", "application/json")],
            path := "/xms/v1/sp1/batches", query := [] }) ∧
    (∀ pc : ProjectConfig,
      (createSMSClient pc).baseURL =
        "https://" ++ strOptOr pc.region "us" ++ ".sms.api.sinch.com" ∧
      (createSMSClient pc).headers =
        [("Authorization", "Bearer " ++ pc.apiToken), ("Content-Type", "application/json")]) ∧
    (∀ (cfg : SinchConfig) (recips : List String) (sender body : String)
      (opts : SMSOptions) (pn : Option String) (pc : ProjectConfig),
      getProjectConfig cfg pn = .ok pc →
      sendSMS cfg recips sender body opts pn =
        .ok (request (createSMSClient pc) .post
          ("/xms/v1/" ++ pc.servicePlanId ++ "/batches") [])) := by
  refine ⟨by decide, fun pc => ⟨rfl, rfl⟩, ?_⟩
  intro cfg recips sender body opts pn pc h
  simp [sendSMS, h]

/-- Witness for C9: the general templating conjunct applied to the
scenario configuration. -/
theorem sms_request_templating_w :
    sendSMS c9cfg [] "s" "b" {} none =
      .ok (request (createSMSClient c9pc) .post ("/xms/v1/" ++ c9pc.servicePlanId ++ "/batches") []) :=
  sms_request_templating.2.2 c9cfg [] "s" "b" {} none c9pc (by decide)

/-- Scenario configuration for C4: parent projects `a, b, b` (the
trimmed split of `PARENT_PROJECTS = "a, b ,b"`) and legacy
`PROJECT_ID = "c"`. -/
def c4cfg : SinchConfig :=
  { servicePlanId := some "sp", apiToken := some "tok",
    projectId := some "c", parentProjects := some ["a", "b", "b"] }

def c4fetch : String → Except String (Option (List String)) :=
  fun _ => .error "network unreachable"

/-- C4 counterexample: the configuration singleton is NOT left unchanged
by the aggregate operations — the first aggregate-list call appends the
legacy identifier `c` to the stored parent-projects list in place, so
the second call in the same process iterates `c` exactly twice, not
once as the claim states. -/
theorem aggregate_second_call_duplicates_legacy_id :
    ((getAllSubprojectsAcrossParents c4fetch
        (getAllSubprojectsAcrossParents c4fetch c4cfg).2).1.map
      ParentListResult.parentProjectId) = ["a", "b", "b", "c", "c"] ∧
    (getAllSubprojectsAcrossParents c4fetch c4cfg).2.parentProjects =
      some ["a", "b", "b", "c"] ∧
    c4cfg.parentProjects = some ["a", "b", "b"] := by decide

/-- C4 (amended): whenever the stored parent-projects list is present
and a (truthy) legacy `projectId` is configured, each aggregate-list
call iterates the stored list plus one appended copy of the legacy
identifier, and leaves the singleton's parent-projects list grown by
that copy — so the list accumulates one copy of the legacy identifier
per call instead of staying unchanged. -/
theorem aggregate_appends_legacy_each_call (cfg : SinchConfig) (ps : List String)
    (pid : String) (f : String → Except String (Option (List String)))
    (h1 : cfg.parentProjects = some ps) (h2 : cfg.projectId = some pid) (h3 : pid ≠ "") :
    (getAllSubprojectsAcrossParents f cfg).2.parentProjects = some (ps ++ [pid]) ∧
    ((getAllSubprojectsAcrossParents f cfg).1.map ParentListResult.parentProjectId) =
      ps ++ [pid] := by
  unfold getAllSubprojectsAcrossParents combinedParentList
  simp [h1, h2, strTruthy, h3, aggregateListLoop_map]

/-- Witness for C4's amended theorem, at the scenario configuration. -/
theorem aggregate_appends_legacy_each_call_w :
    (getAllSubprojectsAcrossParents c4fetch c4cfg).2.parentProjects =
      some ["a", "b", "b", "c"] :=
  (aggregate_appends_legacy_each_call c4cfg ["a", "b", "b"] "c" c4fetch rfl rfl
    (by decide)).1

/-- C8: aggregate-list returns exactly one entry per iterated parent
identifier, in order; an entry whose probe failed records the error
message with an empty subproject list, an entry whose probe succeeded
records the response's subprojects (defaulted to `[]`), and a
per-parent failure never removes or reorders the remaining entries. -/
theorem aggregate_isolates_failures (f : String → Except String (Option (List String)))
    (cfg : SinchConfig) :
    ((getAllSubprojectsAcrossParents f cfg).1.map ParentListResult.parentProjectId =
      (combinedParentList cfg).1) ∧
    (∀ r, r ∈ (getAllSubprojectsAcrossParents f cfg).1 →
      (∀ e, f r.parentProjectId = .error e →
        r = { parentProjectId := r.parentProjectId, subprojects := [], error := some e }) ∧
      (∀ subs, f r.parentProjectId = .ok subs →
        r = { parentProjectId := r.parentProjectId, subprojects := subs.getD [],
              error := none })) := by
  constructor
  · unfold getAllSubprojectsAcrossParents
    exact aggregateListLoop_map f (combinedParentList cfg).1
  · intro r hr
    have hent : r = aggregateEntry f r.parentProjectId := by
      apply aggregateListLoop_mem f (combinedParentList cfg).1
      unfold getAllSubprojectsAcrossParents at hr
      exact hr
    constructor
    · intro e he
      rw [hent]
      unfold aggregateEntry
      rw [he]
    · intro subs hs
      rw [hent]
      unfold aggregateEntry
      rw [hs]

/-- Witness for C8: one failing parent (`p1`) and one succeeding parent
(`p2`); both entries are present, in order. -/
def w8cfg : SinchConfig := { parentProjects := some ["p1", "p2"] }

def w8fetch : String → Except String (Option (List String)) :=
  fun pid => if pid == "p1" then .error "boom" else .ok (some ["s1"])

theorem aggregate_isolates_failures_w :
    (getAllSubprojectsAcrossParents w8fetch w8cfg).1.map ParentListResult.parentProjectId =
      ["p1", "p2"] := by
  rw [(aggregate_isolates_failures w8fetch w8cfg).1]
  decide

/-- Environment for C5's counterexample: only named projects, no legacy
pair. -/
def c5pc : ProjectConfig := { servicePlanId := "spX", apiToken := "tokX" }

def c5envNamedOnly : Env := { projectsParsed := some [("prod", c5pc)] }

/-- Environment for C5's counterexample: `SINCH_PROJECTS` parsed to the
empty JSON object. -/
def c5envEmptyMap : Env := { projectsParsed := some [] }

/-- C5 counterexample: (1) the shipped entry point's startup validation
exits the process when `SINCH_SERVICE_PLAN_ID` is missing even though a
named-project mapping is supplied — so a named-projects-only
configuration DOES abort the process at startup; (2) client
construction also succeeds for an empty named-project mapping (the
parsed `{}` is truthy), although neither the legacy pair is populated
nor the mapping non-empty. Both contradict the claim as stated. -/
theorem client_construction_claim_fails :
    mainStartupCheck c5envNamedOnly =
      .error "SINCH_SERVICE_PLAN_ID environment variable is required" ∧
    getSinchClientConfig c5envEmptyMap = .ok (buildConfigFromEnv c5envEmptyMap) ∧
    c5envEmptyMap.projectsParsed = some [] ∧
    c5envEmptyMap.servicePlanId = none ∧
    c5envEmptyMap.apiToken = none := by decide

/-- C5 (amended): `getSinchClient`'s construction succeeds iff the
legacy pair is fully populated (both values truthy) or `SINCH_PROJECTS`
parsed to an object — even the empty mapping; that configuration error
is raised by `getSinchClientConfig`, i.e. on the first call that needs
a client, not at import time. Independently, the shipped entry point's
`main` validates the two legacy variables at startup and exits the
process when either is missing, regardless of named projects. -/
theorem client_construction_validation (env : Env) :
    ((getSinchClientConfig env).isOk = true ↔
      ((strTruthy env.servicePlanId && strTruthy env.apiToken) = true ∨
        env.projectsParsed.isSome = true)) ∧
    (mainStartupCheck env = .ok () ↔
      (strTruthy env.servicePlanId && strTruthy env.apiToken) = true) := by
  cases hs : strTruthy env.servicePlanId <;> cases ha : strTruthy env.apiToken <;>
    cases hp : env.projectsParsed <;>
      simp [getSinchClientConfig, buildConfigFromEnv, mainStartupCheck, hs, ha, hp,
        Except.isOk, Except.toBool]

/-- Witness for C5's amended theorem: the named-projects-only
environment passes client construction (right-to-left direction) while
its startup check fails (left-to-right contrapositive is exercised by
the counterexample theorem). -/
theorem client_construction_validation_w :
    (getSinchClientConfig c5envNamedOnly).isOk = true :=
  (client_construction_validation c5envNamedOnly).1.mpr (Or.inr (by decide))

/-- C6: for every tool name and argument bag (and any transport,
response-field reader, serializer and client-construction outcome), the
dispatch boundary turns a handler error `e` into exactly the
error-flagged payload whose text is `"Error: " ++ e` — which contains
the error's message — and turns a handler success into the serialized,
non-error-flagged payload; no third shape exists, so no error escapes
the boundary and no failure is returned in the success shape. -/
theorem dispatch_boundary_policy (serialize : ToolOutcome → String)
    (clientConfig : Except String SinchConfig) (net : HTTPRequest → Except String String)
    (subsOf : String → Option (List String)) (name : String) (args : ToolArgs) :
    (∀ e, handleToolCallRun clientConfig net subsOf name args = .error e →
      callToolRequestHandler serialize clientConfig net subsOf name args =
        { text := "Error: " ++ e, isError := true }) ∧
    (∀ v, handleToolCallRun clientConfig net subsOf name args = .ok v →
      callToolRequestHandler serialize clientConfig net subsOf name args =
        { text := serialize v, isError := false }) := by
  constructor
  · intro e he
    unfold callToolRequestHandler
    rw [he]
  · intro v hv
    unfold callToolRequestHandler
    rw [hv]

/-- Witness for C6: an unknown tool name raises `Unknown tool: ...`
inside the handler, and the boundary returns it error-flagged with the
message embedded in the text. -/
def w6cfg : SinchConfig := { servicePlanId := some "sp", apiToken := some "tok" }

def w6net : HTTPRequest → Except String String := fun _ => .error "transport disabled"

def w6subsOf : String → Option (List String) := fun _ => none

def w6serialize : ToolOutcome → String := fun _ => "serialized"

theorem dispatch_boundary_policy_w :
    callToolRequestHandler w6serialize (.ok w6cfg) w6net w6subsOf "bogus_tool" {} =
      { text := "Error: Unknown tool: bogus_tool", isError := true } :=
  (dispatch_boundary_policy w6serialize (.ok w6cfg) w6net w6subsOf "bogus_tool" {}).1
    "Unknown tool: bogus_tool" (by decide)

/-- C1 (code bug): the claimed round-trip fails for every URI the list
handler synthesizes. The WHATWG `URL` constructor parses
`sinch://sms/batch/B1` with host `sms` and pathname `/batch/B1`, so the
read handler — which matches the family against the FIRST pathname
segment — sees segments `batch/B1` and `active/%2B...`, matches
neither recognized shape, and throws `Resource not found` for both
listed-URI families instead of mapping them to the get-batch /
get-active-number calls. -/
theorem read_rejects_every_listed_uri :
    readResourceRoute (makeBatchURI "B1") =
      .error "Resource not found: sinch://sms/batch/B1" ∧
    readResourceRoute (makeNumberURI "+12025550123") =
      .error "Resource not found: sinch://numbers/active/%2B12025550123" ∧
    parseURL (makeBatchURI "B1") =
      some { protocol := "sinch:", host := "sms", pathname := "/batch/B1" } ∧
    parseURL (makeNumberURI "+12025550123") =
      some { protocol := "sinch:", host := "numbers", pathname := "/active/%2B12025550123" } := by
  decide

example : parseParentProjects (some "a, b ,b") = ["a", "b", "b"] := by decide
